import Mathlib

/-!
Verification development for the CBT Review Board workflow supervisor.

This file is a shallow embedding of the routing, drafting, safety,
human-in-the-loop and session-control logic of the repository:

* `src/graph/state.py` / `src/graph/schemas.py` — the blackboard state,
  blackboard notes and the human-decision domain;
* `src/graph/supervisor.py` — the four routers (`route_initial_entry`,
  `route_safety_check`, `route_critic_check`, `route_human_decision`) and
  the conditional-edge path maps registered in `compile_supervisor_graph`;
* `src/graph/agents.py` — the deterministic parts of the drafting node and
  the rule-based part of the safety node (the LLM call results enter as
  parameters);
* `src/api.py` — the `resume_review` endpoint's pause guard;
* `src/api_server.py` — `_prepare_and_invoke_session`'s human-input merge
  and `execute_graph_in_background`'s single-driver guard.

Python floats are modelled as rationals (`ℚ`); the threshold constants
0.85, 0.70 and 0.2 and the test values used here are exactly representable
in the comparisons that matter, so `<` / `≤` distinctions carry over.
-/

namespace CBTReview

/-- The values the `human_decision` field actually carries in the code:
`schemas.py` declares `HumanDecision = Literal["Approve", "Reject"]`, the
state field is `Optional[HumanDecision]`, and the code additionally stores
the sentinel string `"REVIEW_REQUIRED"` (set by `create_initial_state` in
`api_server.py` and by `drafting_agent_node` in `agents.py`) to mark
"no decision made / review required". -/
inductive HDVal
  | approve
  | reject
  | reviewRequired
  deriving DecidableEq, Repr

/-- Field `human_decision` as stored in the state dict: `none` models a missing
key / Python `None` (`state.get("human_decision")` returns `None` then). -/
abbrev HumanDecision := Option HDVal

/-- Severity levels of a blackboard note, from `BlackboardNote` in
`src/graph/state.py` (lines 42–47). -/
inductive Severity
  | info
  | warning
  | blocker
  deriving DecidableEq, Repr

/-- Agent names, from `AgentName` in `src/graph/state.py`. -/
inductive AgentName
  | draftingTeam
  | safetyTeam
  | criticTeam
  | supervisor
  deriving DecidableEq, Repr

/-- A blackboard note (`BlackboardNote` TypedDict, `src/graph/state.py`
lines 42–47). -/
structure BlackboardNote where
  agent : AgentName
  iteration : Nat
  severity : Severity
  message : String
  resolved : Bool
  deriving DecidableEq, Repr

/-- The shared `ProjectState` blackboard (`src/graph/state.py` lines
61–94), restricted to the fields the routing, drafting, safety and
session-control code reads or writes.  Metrics are rationals. -/
structure ProjectState where
  user_intent : String
  thread_id : String
  current_draft : String
  draft_history : List String
  iteration_count : Nat
  active_node : String
  safety_metric : ℚ
  empathy_metric : ℚ
  blackboard_notes : List BlackboardNote
  human_decision : HumanDecision
  deriving DecidableEq, Repr

/-- A baseline state used to build concrete test states; mirrors
`create_initial_state` in `src/api_server.py` (lines 61–77). -/
def initialState (prompt tid : String) : ProjectState :=
  { user_intent := prompt
    thread_id := tid
    current_draft := ""
    draft_history := []
    iteration_count := 0
    active_node := "Drafting"
    safety_metric := 0
    empathy_metric := 0
    blackboard_notes := []
    human_decision := some .reviewRequired }

/-- Shorthand baseline state for concrete evaluations. -/
def baseState : ProjectState := initialState ("anxiety coping exercise") ("session_1")

/-! Section: Routers, `src/graph/supervisor.py` -/

/-- Router `route_initial_entry` (supervisor.py lines 19–36): the conditional
entry point of the compiled graph.  `"Approve"` routes to Finalize,
everything else starts Drafting. -/
def route_initial_entry (state : ProjectState) : String :=
  if state.human_decision = some .approve then ("Finalize") else ("Drafting")

/-- Router `route_safety_check` (supervisor.py lines 39–46):
`if state.get("safety_metric", 0.0) < 0.85: return "Drafting"` else
`"Critic"`. -/
def route_safety_check (state : ProjectState) : String :=
  if state.safety_metric < 85/100 then ("Drafting") else ("Critic")

/-- Router `route_critic_check` (supervisor.py lines 48–74).  The source
consults only `empathy_metric` and `iteration_count`; it never reads
`blackboard_notes`. -/
def route_critic_check (state : ProjectState) : String :=
  if state.empathy_metric < 70/100 then ("Drafting")
  else if state.iteration_count = 1 then ("HIL_Node")
  else if 20 ≤ state.iteration_count then ("Finalize")
  else ("HIL_Node")

/-- Router `route_human_decision` (supervisor.py lines 77–99): `"Approve"` →
Finalize, `"Reject"` → Drafting, anything else → `"HIL_Node"`. -/
def route_human_decision (state : ProjectState) : String :=
  if state.human_decision = some .approve then ("Finalize")
  else if state.human_decision = some .reject then ("Drafting")
  else ("HIL_Node")

/-! Section: Conditional-edge path maps, `compile_supervisor_graph`
(supervisor.py lines 164–211).  LangGraph resolves a router's return
value through the registered dict; a return value missing from the dict
is a `KeyError` at run time, modelled as `none`. -/

/-- Entry path map: `{"Drafting": "Drafting", "Finalize": "Finalize"}`
(supervisor.py lines 178–181). -/
def entryPathMap : String → Option String
  | "Drafting" => some ("Drafting")
  | "Finalize" => some ("Finalize")
  | _ => none

/-- Safety path map: `{"Drafting": "Drafting", "Critic": "Critic"}`
(supervisor.py lines 185–189). -/
def safetyPathMap : String → Option String
  | "Drafting" => some ("Drafting")
  | "Critic" => some ("Critic")
  | _ => none

/-- Critic path map:
`{"Drafting": "Drafting", "HIL_Node": "HIL_Node", "Finalize": "Finalize"}`
(supervisor.py lines 191–195). -/
def criticPathMap : String → Option String
  | "Drafting" => some ("Drafting")
  | "HIL_Node" => some ("HIL_Node")
  | "Finalize" => some ("Finalize")
  | _ => none

/-- HIL path map: `{"Drafting": "Drafting", "Finalize": "Finalize"}`
(supervisor.py lines 197–201).  Note it has NO entry for `"HIL_Node"`,
although `route_human_decision` can return exactly that string. -/
def hilPathMap : String → Option String
  | "Drafting" => some ("Drafting")
  | "Finalize" => some ("Finalize")
  | _ => none

/-- The node names registered by `workflow.add_node` in
`compile_supervisor_graph` (supervisor.py lines 171–175); these, plus the
terminal `"__end__"`, are the only names LangGraph ever reports in a
checkpoint's `next` tuple. -/
def registeredNodes : List String :=
  ["Drafting", "Safety", "Critic", "HIL_Node", "Finalize"]

/-! Section: Drafting node, `drafting_agent_node` in `src/graph/agents.py`
(lines 28–115).  The LLM produces the new draft text; it enters here as
the parameter `new_draft`.  Everything else the node returns is
deterministic state manipulation. -/

/-- The partial update returned by `drafting_agent_node` (agents.py lines
104–115): new draft, history with the previous non-empty draft appended,
iteration count bumped by one, and `human_decision` reset to the
`"REVIEW_REQUIRED"` sentinel. -/
structure DraftingUpdate where
  current_draft : String
  draft_history : List String
  iteration_count : Nat
  human_decision : HumanDecision
  deriving DecidableEq, Repr

/-- Node `drafting_agent_node` restricted to its returned update dict
(agents.py lines 100–115). -/
def drafting_agent_node (state : ProjectState) (new_draft : String) : DraftingUpdate :=
  { current_draft := new_draft
    draft_history :=
      if state.current_draft = "" then state.draft_history
      else state.draft_history ++ [state.current_draft]
    iteration_count := state.iteration_count + 1
    human_decision := some .reviewRequired }

/-- Merging the drafting update back into the blackboard, as LangGraph
does with the returned dict. -/
def applyDrafting (state : ProjectState) (new_draft : String) : ProjectState :=
  let u := drafting_agent_node state new_draft
  { state with
      current_draft := u.current_draft
      draft_history := u.draft_history
      iteration_count := u.iteration_count
      active_node := "Drafting"
      human_decision := u.human_decision }

/-- A sequence of drafting-stage executions, one per generated draft. -/
def runDrafts (state : ProjectState) (drafts : List String) : ProjectState :=
  drafts.foldl applyDrafting state

/-! Section: Safety node, `safety_agent_node` in `src/graph/agents.py`
(lines 118–168), rule-based part. -/

/-- Constant `PROHIBITED_TERMS` (agents.py lines 16–24), in the set's source
order. -/
def PROHIBITED_TERMS : List String :=
  [ "take this medication"
  , "discontinue treatment"
  , "contact your doctor immediately"
  , "prescription"
  , "diagnosis"
  , "dosage"
  , "cure for" ]

/-- Whether `needle` matches at the head of `hay` (character lists). -/
def leadMatch : List Char → List Char → Bool
  | [], _ => true
  | _ :: _, [] => false
  | a :: as, b :: bs => a == b && leadMatch as bs

/-- Whether `needle` occurs anywhere inside `hay`, i.e. Python's
`needle in hay` on strings. -/
def hasSubList (needle : List Char) : List Char → Bool
  | [] => leadMatch needle []
  | c :: rest => leadMatch needle (c :: rest) || hasSubList needle rest

/-- Python's `sub in s` substring test. -/
def strHasSub (s sub : String) : Bool :=
  hasSubList sub.toList s.toList

/-- Python's `s.lower()`, character by character (all the prohibited
terms and drafts involved are ASCII, where the two agree). -/
def lowerChars (cs : List Char) : List Char :=
  cs.map Char.toLower

/-- The fields the `SafetyReport` pydantic model actually declares
(`src/graph/state.py` lines 16–26): only `flagged_lines` and
`safety_score`.  There is no `feedback` field. -/
def safetyReportFields : List String := ["flagged_lines", "safety_score"]

/-- Outcome of the deterministic tail of `safety_agent_node`. -/
structure SafetyOutcome where
  safety_metric : ℚ
  violations : List String
  deriving DecidableEq, Repr

/-- Node `safety_agent_node` (agents.py lines 142–168) after the LLM call,
whose score enters as `llm_score`.  The node lowercases the draft, scans
for prohibited terms, and on any violation caps the score at 0.2 and then
evaluates `if not safety_output.feedback:` — an attribute read on the
`SafetyReport` pydantic object.  Pydantic raises `AttributeError` for an
attribute that is not a declared field, so the read only succeeds when
`"feedback"` is among `safetyReportFields`; otherwise the node raises,
modelled as `Except.error`. -/
def safety_agent_node (state : ProjectState) (llm_score : ℚ) :
    Except String SafetyOutcome :=
  let normalized_draft := lowerChars state.current_draft.toList
  let safety_violations :=
    (PROHIBITED_TERMS.filter (fun t => hasSubList t.toList normalized_draft)).map
      (fun t => "Contains prohibited phrase: " ++ t)
  if safety_violations.isEmpty then
    .ok { safety_metric := llm_score, violations := [] }
  else
    -- `safety_output.safety_score = min(safety_output.safety_score, 0.2)`
    -- succeeds (the field exists); the next line reads `.feedback`.
    if safetyReportFields.contains ("feedback") then
      .ok { safety_metric := min llm_score (2/10), violations := safety_violations }
    else
      .error ("AttributeError: SafetyReport object has no attribute feedback")

/-! Section: `resume_review` in `src/api.py` (lines 111–149). -/

/-- Result of the `resume_review` endpoint: an HTTP error status or the
decision written into the state before re-invoking the graph. -/
def resume_review (next_nodes : List String) (user_action : String) :
    Except Nat HDVal :=
  -- `if state.next != ('hil_node',): raise HTTPException(status_code=400, ...)`
  if next_nodes = ["hil_node"] then
    -- `user_action.lower() == "approve"` and `... == "reject"`
    if lowerChars user_action.toList = ("approve").toList then .ok .approve
    else if lowerChars user_action.toList = ("reject").toList then .ok .reject
    else .error 400
  else .error 400

/-! Section: `_prepare_and_invoke_session` in `src/api_server.py`
(lines 194–243), resume branch. -/

/-- The decision carried in a `ResumeSessionRequest`: its
`human_decision` field is pydantic-validated against
`Literal["Approve", "Reject"]`, so only these two values can arrive. -/
inductive ReqDecision
  | approve
  | reject
  deriving DecidableEq, Repr

/-- Request model `ResumeSessionRequest` (api_server.py lines 44–47). -/
structure ResumeSessionRequest where
  thread_id : String
  suggested_content : String
  human_decision : ReqDecision
  deriving DecidableEq, Repr

/-- The human-input merge of `_prepare_and_invoke_session`
(api_server.py lines 221–232): on Approve, `human_decision` is set and
`user_intent` is stripped back to the part before any prior
`"REVISION INSTRUCTION"`; on Reject, `user_intent` is rewritten to embed
the suggested content and `active_node` is forced to Drafting. -/
def apply_human_input (state : ProjectState) (req : ResumeSessionRequest) :
    ProjectState :=
  match req.human_decision with
  | .approve =>
      { state with
          human_decision := some .approve
          user_intent :=
            ((state.user_intent.splitOn ("REVISION INSTRUCTION")).headD ("")).trim }
  | .reject =>
      { state with
          user_intent :=
            "REVISION INSTRUCTION (Based on Rejected Draft): " ++ req.suggested_content
          human_decision := some .reject
          active_node := "Drafting" }

/-! Section: `execute_graph_in_background` in `src/api_server.py`
(lines 176–192) and the `active_threads` registry (lines 33–35). -/

/-- The in-memory `active_threads` registry: each entry maps a thread id
to whether its background thread `is_alive()`. -/
abbrev ThreadRegistry := List (String × Bool)

/-- Lookup `active_threads.get(thread_id)`. -/
def lookupThread (reg : ThreadRegistry) (tid : String) : Option Bool :=
  (reg.find? (fun p => p.1 = tid)).map (·.2)

/-- Insert-or-replace an entry, as `active_threads[thread_id] = ...`. -/
def upsertThread (reg : ThreadRegistry) (tid : String) (alive : Bool) :
    ThreadRegistry :=
  if (reg.find? (fun p => p.1 = tid)).isSome then
    reg.map (fun p => if p.1 = tid then (p.1, alive) else p)
  else
    reg ++ [(tid, alive)]

/-- Outcome of `execute_graph_in_background`: the HTTP-level response,
the registry after the call, and how many new driver threads were
started. -/
structure ExecOutcome where
  response : Except String Unit
  active_threads : ThreadRegistry
  driversStarted : Nat
  deriving Repr

/-- Guarded start `execute_graph_in_background` (api_server.py lines 176–192):
`existing_thread = active_threads.get(thread_id);
if existing_thread and existing_thread.is_alive(): raise
HTTPException(400, "... already running.")`; otherwise a new daemon
thread is registered and started.  The raise happens before any
registration or thread creation. -/
def execute_graph_in_background (reg : ThreadRegistry) (tid : String) :
    ExecOutcome :=
  if lookupThread reg tid = some true then
    { response := .error ("Session " ++ tid ++ " is already running.")
      active_threads := reg
      driversStarted := 0 }
  else
    { response := .ok ()
      active_threads := upsertThread reg tid true
      driversStarted := 1 }

/-! Section: concrete states used by the theorems below. -/

/-- An unresolved blocker note on the blackboard. -/
def blockerNote : BlackboardNote :=
  { agent := .safetyTeam
    iteration := 1
    severity := .blocker
    message := "unsafe medical advice detected"
    resolved := false }

/-- A state at the Critique routing decision whose empathy metric passes
(0.95) while one unresolved blocker note sits on the blackboard. -/
def c1State : ProjectState :=
  { baseState with
      empathy_metric := 95/100
      iteration_count := 1
      blackboard_notes := [blockerNote] }

/-- A state whose draft contains the prohibited term `"diagnosis"`. -/
def c9State : ProjectState :=
  { baseState with current_draft := "Here is a diagnosis for you." }

/-- A concrete resume request carrying rejection feedback. -/
def c6Req : ResumeSessionRequest :=
  { thread_id := "session_1"
    suggested_content := "add more validating language"
    human_decision := .reject }

/-- A thread registry with one live driver for `"session_1"`. -/
def c8Registry : ThreadRegistry := [("session_1", true)]

/-! Section: claim theorems. -/

/-- C1, counterexample.  The claim says an unresolved blocker note forces
the Critique router to return Draft even when `empathy_score = 0.95`.  On
the code it is false: `route_critic_check` never reads
`blackboard_notes`, so this state — empathy 0.95, iteration 1, one
unresolved blocker — routes to `"HIL_Node"`, not `"Drafting"`. -/
theorem c1_blocker_dominance_counterexample :
    (∃ n ∈ c1State.blackboard_notes, n.severity = .blocker ∧ n.resolved = false)
    ∧ c1State.empathy_metric = 95/100
    ∧ route_critic_check c1State = "HIL_Node"
    ∧ route_critic_check c1State ≠ "Drafting" := by
  have hemp : ¬ c1State.empathy_metric < 70/100 :=
    not_lt.mpr (show (70:ℚ)/100 ≤ 95/100 by norm_num)
  have hroute : route_critic_check c1State = "HIL_Node" := by
    unfold route_critic_check
    rw [if_neg hemp, if_pos (show c1State.iteration_count = 1 from rfl)]
  refine ⟨⟨blockerNote, List.Mem.head _, rfl, rfl⟩, rfl, hroute, ?_⟩
  rw [hroute]
  decide

/-- C1, amended.  The Critique router ignores blocker notes entirely:
its result is invariant under any change of `blackboard_notes`, and
whenever the empathy metric passes the 0.70 threshold at iteration 1 it
routes to `"HIL_Node"` (human review) even if unresolved blocker notes
are present. -/
theorem c1_critic_router_ignores_blocker_notes :
    (∀ (st : ProjectState) (notes : List BlackboardNote),
        route_critic_check { st with blackboard_notes := notes } =
          route_critic_check st)
    ∧ (∀ st : ProjectState,
        70/100 ≤ st.empathy_metric → st.iteration_count = 1 →
          route_critic_check st = "HIL_Node") := by
  constructor
  · intro st notes
    rfl
  · intro st h1 h2
    unfold route_critic_check
    rw [if_neg (not_lt.mpr h1), if_pos h2]

/-- C1, witness for the amended theorem at the concrete blocker state. -/
theorem c1_critic_router_ignores_blocker_notes_witness :
    route_critic_check { c1State with blackboard_notes := [] } =
      route_critic_check c1State
    ∧ route_critic_check c1State = "HIL_Node" :=
  ⟨c1_critic_router_ignores_blocker_notes.1 c1State [],
   c1_critic_router_ignores_blocker_notes.2 c1State
     (show (70:ℚ)/100 ≤ 95/100 by norm_num) rfl⟩

/-- C2.  The router function `route_human_decision` is total and returns
`"HIL_Node"` for an unrecognized or sentinel decision — but the
conditional-edge dict registered for `HIL_Node` in
`compile_supervisor_graph` maps only `"Drafting"` and `"Finalize"`, so
the compiled graph has no destination for that return value: LangGraph
raises instead of keeping the session suspended. -/
theorem c2_hil_routing_gap :
    route_human_decision baseState = "HIL_Node"
    ∧ route_human_decision { baseState with human_decision := none } = "HIL_Node"
    ∧ hilPathMap "HIL_Node" = none
    ∧ hilPathMap (route_human_decision baseState) = none :=
  ⟨rfl, rfl, rfl, rfl⟩

/-- C3.  The `resume_review` endpoint compares the checkpoint's `next`
tuple against the lowercase `('hil_node',)`, but the node registered in
the graph is named `"HIL_Node"` — so a session genuinely paused at the
human-review node is rejected with HTTP 400, and since `"hil_node"` is
not a registered node name no reachable `next` value can ever pass the
guard; resuming with Approve therefore never drives the session to
Done through this endpoint. -/
theorem c3_resume_guard_name_mismatch :
    resume_review (["HIL_Node"]) ("approve") = .error 400
    ∧ resume_review (["HIL_Node"]) ("reject") = .error 400
    ∧ resume_review (["Finalize"]) ("approve") = .error 400
    ∧ resume_review ([]) ("approve") = .error 400
    ∧ registeredNodes.contains ("HIL_Node") = true
    ∧ registeredNodes.contains ("hil_node") = false :=
  ⟨rfl, rfl, rfl, rfl, rfl, rfl⟩

/-- C4.  Every execution of the drafting stage resets `human_decision`
to the `"REVIEW_REQUIRED"` sentinel — the code's marker for "no decision
made" — so the produced state never carries a stale Approve or Reject. -/
theorem c4_drafting_clears_human_decision :
    ∀ (st : ProjectState) (d : String),
      (drafting_agent_node st d).human_decision = some .reviewRequired
      ∧ (drafting_agent_node st d).human_decision ≠ some .approve
      ∧ (drafting_agent_node st d).human_decision ≠ some .reject
      ∧ (applyDrafting st d).human_decision = some .reviewRequired := by
  intro st d
  exact ⟨rfl,
    (by decide : (some HDVal.reviewRequired : HumanDecision) ≠ some HDVal.approve),
    (by decide : (some HDVal.reviewRequired : HumanDecision) ≠ some HDVal.reject),
    rfl⟩

/-- C4, witness at a concrete state and draft. -/
theorem c4_drafting_clears_human_decision_witness :
    (drafting_agent_node baseState ("a calming exercise")).human_decision =
      some .reviewRequired
    ∧ (applyDrafting baseState ("a calming exercise")).human_decision =
      some .reviewRequired :=
  ⟨(c4_drafting_clears_human_decision baseState ("a calming exercise")).1,
   (c4_drafting_clears_human_decision baseState ("a calming exercise")).2.2.2⟩

/-- C5.  The SafetyReview threshold comparison is a strict `<`:
`safety_metric = 0.85` routes to Critique, `0.8499` routes to Draft, and
in general the router returns Draft exactly when the metric is strictly
below 0.85. -/
theorem c5_safety_threshold_strict :
    route_safety_check { baseState with safety_metric := 85/100 } = "Critic"
    ∧ route_safety_check { baseState with safety_metric := 8499/10000 } = "Drafting"
    ∧ ∀ st : ProjectState,
        (route_safety_check st = "Drafting" ↔ st.safety_metric < 85/100)
        ∧ (route_safety_check st = "Critic" ↔ 85/100 ≤ st.safety_metric) := by
  refine ⟨?_, ?_, ?_⟩
  · show (if ((85:ℚ)/100) < 85/100 then ("Drafting") else ("Critic")) = "Critic"
    rw [if_neg (by norm_num : ¬ ((85:ℚ)/100 < 85/100))]
  · show (if ((8499:ℚ)/10000) < 85/100 then ("Drafting") else ("Critic")) = "Drafting"
    rw [if_pos (by norm_num : (8499:ℚ)/10000 < 85/100)]
  intro st
  unfold route_safety_check
  by_cases h : st.safety_metric < 85/100
  · rw [if_pos h]
    exact ⟨iff_of_true rfl h, iff_of_false (by decide) (not_le.mpr h)⟩
  · rw [if_neg h]
    exact ⟨iff_of_false (by decide) h, iff_of_true rfl (not_lt.mp h)⟩

/-- C5, witness: the general characterization applied at metric 0.9. -/
theorem c5_safety_threshold_strict_witness :
    route_safety_check { baseState with safety_metric := 9/10 } = "Critic" :=
  ((c5_safety_threshold_strict.2.2
      { baseState with safety_metric := 9/10 }).2).mpr
    (show (85:ℚ)/100 ≤ 9/10 by norm_num)

/-- C6.  On Reject the resume logic rewrites `user_intent` to embed the
supplied revision content as a revision instruction, and both the entry
router and the HIL router then send the session to Drafting; on Approve
the resulting state is independent of the supplied revision content — it
is never merged. -/
theorem c6_reject_merges_revision_into_intent :
    ∀ (st : ProjectState) (req : ResumeSessionRequest),
      (req.human_decision = .reject →
        (apply_human_input st req).user_intent =
          "REVISION INSTRUCTION (Based on Rejected Draft): " ++ req.suggested_content
        ∧ route_human_decision (apply_human_input st req) = "Drafting"
        ∧ route_initial_entry (apply_human_input st req) = "Drafting")
      ∧ (req.human_decision = .approve →
        ∀ c : String,
          apply_human_input st { req with suggested_content := c } =
            apply_human_input st req) := by
  intro st req
  rcases req with ⟨tid, content, dec⟩
  cases dec
  · exact ⟨(fun h => nomatch h), (fun _ c => rfl)⟩
  · exact ⟨(fun _ => ⟨rfl, rfl, rfl⟩), (fun h => nomatch h)⟩

/-- C6, witness at a concrete rejected draft. -/
theorem c6_reject_merges_revision_into_intent_witness :
    (apply_human_input baseState c6Req).user_intent =
      "REVISION INSTRUCTION (Based on Rejected Draft): add more validating language"
    ∧ route_human_decision (apply_human_input baseState c6Req) = "Drafting" := by
  have h := (c6_reject_merges_revision_into_intent baseState c6Req).1 rfl
  exact ⟨h.1, h.2.1⟩

/-- C7.  Each drafting execution increments `iteration_count` by exactly
one, and a sequence of drafting executions increases it by exactly its
length — never decremented, never skipped. -/
theorem c7_iteration_count_increments_by_one :
    (∀ (st : ProjectState) (d : String),
      (drafting_agent_node st d).iteration_count = st.iteration_count + 1
      ∧ (applyDrafting st d).iteration_count = st.iteration_count + 1)
    ∧ (∀ (st : ProjectState) (ds : List String),
      (runDrafts st ds).iteration_count = st.iteration_count + ds.length) := by
  constructor
  · intro st d
    exact ⟨rfl, rfl⟩
  · intro st ds
    induction ds generalizing st with
    | nil => rfl
    | cons d rest ih =>
        have h : runDrafts st (d :: rest) = runDrafts (applyDrafting st d) rest := rfl
        rw [h, ih (applyDrafting st d)]
        show (applyDrafting st d).iteration_count + rest.length =
          st.iteration_count + (d :: rest).length
        have h2 : (applyDrafting st d).iteration_count = st.iteration_count + 1 := rfl
        rw [h2, List.length_cons]
        omega

/-- C8.  Starting a session whose driver is still alive fails immediately
with the AlreadyRunning error, leaves the thread registry untouched and
starts no second driver. -/
theorem c8_already_running_guard :
    ∀ (reg : ThreadRegistry) (tid : String),
      lookupThread reg tid = some true →
        (execute_graph_in_background reg tid).response =
          .error ("Session " ++ tid ++ " is already running.")
        ∧ (execute_graph_in_background reg tid).active_threads = reg
        ∧ (execute_graph_in_background reg tid).driversStarted = 0 := by
  intro reg tid h
  unfold execute_graph_in_background
  rw [if_pos h]
  exact ⟨rfl, rfl, rfl⟩

/-- C8, witness on a registry holding one live driver. -/
theorem c8_already_running_guard_witness :
    lookupThread c8Registry "session_1" = some true
    ∧ (execute_graph_in_background c8Registry "session_1").active_threads = c8Registry
    ∧ (execute_graph_in_background c8Registry "session_1").driversStarted = 0 := by
  have h : lookupThread c8Registry "session_1" = some true := rfl
  exact ⟨h, (c8_already_running_guard c8Registry "session_1" h).2.1,
    (c8_already_running_guard c8Registry "session_1" h).2.2⟩

/-- C9.  On a draft containing a prohibited term the safety node does
NOT return normally: after capping the score it evaluates
`if not safety_output.feedback:` — but the `SafetyReport` pydantic model
declares only `flagged_lines` and `safety_score`, so the attribute read
raises `AttributeError`.  A clean draft, by contrast, returns normally
with the LLM score untouched. -/
theorem c9_safety_node_raises_on_prohibited_term :
    safety_agent_node c9State (9/10) =
      .error ("AttributeError: SafetyReport object has no attribute feedback")
    ∧ hasSubList ("diagnosis").toList (lowerChars c9State.current_draft.toList) = true
    ∧ safetyReportFields.contains ("feedback") = false
    ∧ safety_agent_node baseState (9/10) =
        .ok { safety_metric := 9/10, violations := [] } :=
  ⟨rfl, rfl, rfl, rfl⟩

/-- C10.  The conditional entry point routes a freshly invoked thread to
Finalize exactly when its state carries `human_decision = Approve`
(bypassing all other stages — the entry map has a direct edge), and to
Drafting for every other decision value, Reject and unset included. -/
theorem c10_entry_routing :
    ∀ st : ProjectState,
      (route_initial_entry st = "Finalize" ↔ st.human_decision = some .approve)
      ∧ (route_initial_entry st = "Drafting" ↔ st.human_decision ≠ some .approve)
      ∧ entryPathMap (route_initial_entry st) = some (route_initial_entry st) := by
  intro st
  unfold route_initial_entry
  by_cases h : st.human_decision = some .approve
  · rw [if_pos h]
    exact ⟨iff_of_true rfl h, iff_of_false (by decide) (not_not_intro h), rfl⟩
  · rw [if_neg h]
    exact ⟨iff_of_false (by decide) h, iff_of_true rfl h, rfl⟩

/-- C10, witness: pre-approved state enters at Finalize, a rejected and
an unset state enter at Drafting. -/
theorem c10_entry_routing_witness :
    route_initial_entry { baseState with human_decision := some .approve } = "Finalize"
    ∧ route_initial_entry { baseState with human_decision := some .reject } = "Drafting"
    ∧ route_initial_entry { baseState with human_decision := none } = "Drafting" :=
  ⟨(c10_entry_routing { baseState with human_decision := some .approve }).1.mpr rfl,
   (c10_entry_routing { baseState with human_decision := some .reject }).2.1.mpr (by decide),
   (c10_entry_routing { baseState with human_decision := none }).2.1.mpr (by decide)⟩

end CBTReview
